import Mathlib

/- Verification of the tgbot moderation core: shallow Lean embeddings of the
   antiflood sliding-window check, the blacklist content filter, the message
   middleware dispatch order, the warn/mute/unmute moderation commands, the
   captcha verification state machine, and the scheduled-post sweep, with
   theorems settling the specification claims about them. -/

namespace TgBot

/-- Antiflood configuration (`antiflood_plugin.py`, `get_antispam_config`):
`enabled`, `max_messages`, `window_seconds`.  Defaults: enabled, 5 messages
per 10-second window. -/
structure AntispamConfig where
  enabled : Bool
  max_messages : Int
  window_seconds : Int
deriving Repr, DecidableEq

/-- `is_flooding` (`antiflood_plugin.py` lines 71-107) restricted to one
`(chat_id, user_id)` key: the key's deque of recorded timestamps is passed in
explicitly and the updated deque is returned alongside the flood verdict.
When the config is disabled the function returns `false` without touching the
window.  Otherwise `now` is appended on the right, entries are popped from
the left while `now - head > window_seconds`, and the verdict is
`message_count > max_messages`. -/
def is_flooding (cfg : AntispamConfig) (window : List Int) (now : Int) :
    Bool × List Int :=
  if cfg.enabled = false then (false, window)
  else
    let w2 := (window ++ [now]).dropWhile (fun t => decide (now - t > cfg.window_seconds))
    (decide ((w2.length : Int) > cfg.max_messages), w2)

/-- On a sorted list, a `dropWhile` with a downward-closed predicate removes
exactly the elements satisfying the predicate, provided the appended final
element does not satisfy it. -/
theorem dropWhile_append_eq_filter (p : Int → Bool) (x : Int)
    (hx : p x = false)
    (hmono : ∀ a b : Int, a ≤ b → p b = true → p a = true) :
    ∀ l : List Int, l.Sorted (· ≤ ·) →
      (l ++ [x]).dropWhile p = (l ++ [x]).filter (fun a => !p a) := by
  intro l hl
  induction l with
  | nil => simp [List.dropWhile, hx]
  | cons a l ih =>
    rw [List.sorted_cons] at hl
    obtain ⟨ha, hl'⟩ := hl
    by_cases hpa : p a = true
    · simp only [List.cons_append, List.dropWhile_cons, hpa, if_true,
        List.filter_cons, Bool.not_eq_true']
      rw [ih hl']
      simp [hpa]
    · have hpa' : p a = false := by
        cases h : p a
        · rfl
        · exact absurd h hpa
      simp only [List.cons_append, List.dropWhile_cons, hpa', Bool.false_eq_true,
        if_false, List.filter_cons, hpa', Bool.not_false, if_true]
      have hrest : (l ++ [x]).filter (fun a => !p a) = l ++ [x] := by
        rw [List.filter_eq_self]
        intro y hy
        rcases List.mem_append.mp hy with hyl | hyx
        · have : p y = false := by
            cases h : p y
            · rfl
            · exact absurd (hmono a y (ha y hyl) h) (by simp [hpa'])
          simp [this]
        · have : y = x := by simpa using hyx
          simp [this, hx]
      rw [hrest]

/-- C1.  Flood check correctness: with the antiflood config enabled, a
nonnegative window length, and a (chronologically) sorted prior window, the
check appends `now`, evicts exactly the timestamps strictly older than
`now - window_seconds`, and reports flooding iff strictly more than
`max_messages` timestamps remain; with the config disabled it returns `false`
and leaves the window untouched. -/
theorem antiflood_check_correct (cfg : AntispamConfig) (w : List Int) (now : Int) :
    (cfg.enabled = true → w.Sorted (· ≤ ·) → 0 ≤ cfg.window_seconds →
      (is_flooding cfg w now).2 =
        (w ++ [now]).filter (fun t => decide (now - t ≤ cfg.window_seconds)) ∧
      (is_flooding cfg w now).1 =
        decide ((((is_flooding cfg w now).2.length : Int)) > cfg.max_messages)) ∧
    (cfg.enabled = false → is_flooding cfg w now = (false, w)) := by
  constructor
  · intro hen hsort hwin
    have hx : (fun t => decide (now - t > cfg.window_seconds)) now = false := by
      simp
      omega
    have hmono : ∀ a b : Int, a ≤ b →
        (fun t => decide (now - t > cfg.window_seconds)) b = true →
        (fun t => decide (now - t > cfg.window_seconds)) a = true := by
      intro a b hab hb
      simp only [decide_eq_true_eq] at hb ⊢
      omega
    have hdrop := dropWhile_append_eq_filter _ now hx hmono w hsort
    have hfil : (w ++ [now]).filter (fun a => !decide (now - a > cfg.window_seconds)) =
        (w ++ [now]).filter (fun t => decide (now - t ≤ cfg.window_seconds)) := by
      apply List.filter_congr
      intro t _
      simp only [← decide_not, decide_eq_decide]
      omega
    constructor
    · simp only [is_flooding, hen, Bool.true_eq_false, if_false]
      rw [hdrop, hfil]
    · simp only [is_flooding, hen, Bool.true_eq_false, if_false]
  · intro hdis
    simp [is_flooding, hdis]

/-- C1 witness: five prior messages at seconds 0..4 and a sixth at second 5,
inside a 10-second window with `max_messages = 5`: the sixth check keeps all
six timestamps and reports flooding. -/
theorem antiflood_check_correct_witness :
    (is_flooding ⟨true, 5, 10⟩ [0, 1, 2, 3, 4] 5).2 =
      ([0, 1, 2, 3, 4] ++ [5]).filter (fun t => decide ((5 : Int) - t ≤ 10)) ∧
    (is_flooding ⟨true, 5, 10⟩ [0, 1, 2, 3, 4] 5).1 =
      decide ((((is_flooding ⟨true, 5, 10⟩ [0, 1, 2, 3, 4] 5).2.length : Int)) > 5) :=
  (antiflood_check_correct ⟨true, 5, 10⟩ [0, 1, 2, 3, 4] 5).1 rfl (by decide) (by decide)

/-- One character of Python `str.lower`, restricted to the character ranges
the bot's texts and configuration use: ASCII `A`-`Z` and Cyrillic `А`-`Я`
plus `Ё` map to their lowercase forms; every other character is unchanged. -/
def pyLowerChar (c : Char) : Char :=
  if 65 ≤ c.toNat ∧ c.toNat ≤ 90 then Char.ofNat (c.toNat + 32)
  else if 0x410 ≤ c.toNat ∧ c.toNat ≤ 0x42F then Char.ofNat (c.toNat + 32)
  else if c.toNat = 0x401 then Char.ofNat 0x451
  else c

/-- Python `str.lower` over the text's characters. -/
def pyLower (s : List Char) : List Char := s.map pyLowerChar

/-- The whitespace characters removed by Python `str.strip`. -/
def isPySpace (c : Char) : Bool :=
  c = ' ' || c = '\t' || c = '\n' || c = '\r' || c.toNat = 11 || c.toNat = 12

/-- Python `str.strip`: drop whitespace from both ends. -/
def pyStrip (s : List Char) : List Char :=
  ((s.dropWhile isPySpace).reverse.dropWhile isPySpace).reverse

/-- Python substring test `needle in hay`. -/
def strContains (hay needle : List Char) : Bool :=
  hay.tails.any (fun t => needle.isPrefixOf t)

/-- The command allow-list shared by `is_blacklisted_content` and
`BlacklistMiddleware` (`blacklist_plugin.py` lines 101-104 and 193-196). -/
def commands : List String :=
  ["/start", "/help", "/ping", "/set_name_topic", "/stats", "/rep", "/top",
   "/delete", "/poll", "/mute", "/unmute", "/invites", "/kick", "/ban", "/warn", "/admin"]

/-- Content-filter configuration (`blacklist_plugin.py` module globals
`ANTIMAT_ENABLED`, `ANTIMAT_WARNINGS_ENABLED`, `blacklist_words`,
`blacklist_links`). -/
structure AntimatConfig where
  enabled : Bool
  warnings_enabled : Bool
  blacklist_words : List String
  blacklist_links : List String
deriving Repr, DecidableEq

/-- The default content-filter configuration seeded when no stored settings
exist (`blacklist_plugin.py` lines 60-64). -/
def antimatDefault : AntimatConfig :=
  ⟨true, true, ["дурак", "лох"], ["t.me/", "http://", "https://"]⟩

/-- `is_blacklisted_content` (`blacklist_plugin.py` lines 90-127): false when
the text is empty or the filter is disabled; false when the lower-cased,
whitespace-stripped text starts with a recognized command prefix; otherwise
true iff the lower-cased text contains a configured word or link fragment. -/
def is_blacklisted_content (cfg : AntimatConfig) (text : String) : Bool :=
  if text.data.isEmpty || !cfg.enabled then false
  else if commands.any (fun c => (pyLower c.data).isPrefixOf (pyStrip (pyLower text.data))) then
    false
  else if cfg.blacklist_words.any (fun w => strContains (pyLower text.data) w.data) then true
  else if cfg.blacklist_links.any (fun l => strContains (pyLower text.data) l.data) then true
  else false

/-- Claim C8 as literally stated: the command-prefix exemption tests the
lower-cased text itself (no whitespace stripping); otherwise the verdict is
substring membership over the lower-cased text. -/
def is_blacklisted_claimC8 (cfg : AntimatConfig) (text : String) : Bool :=
  if !cfg.enabled || text.data.isEmpty ||
      commands.any (fun c => (pyLower c.data).isPrefixOf (pyLower text.data)) then false
  else
    cfg.blacklist_words.any (fun w => strContains (pyLower text.data) w.data) ||
    cfg.blacklist_links.any (fun l => strContains (pyLower text.data) l.data)

/-- C8 counterexample: on the text `" /ban @x дурак"` (leading space) with the
default word list, the claim as stated yields `true` (the raw text does not
start with a command prefix and contains a blacklisted word) but the code
strips whitespace before the prefix test and returns `false`. -/
theorem blacklist_claim_counterexample :
    is_blacklisted_claimC8 antimatDefault " /ban @x дурак" = true ∧
    is_blacklisted_content antimatDefault " /ban @x дурак" = false := by
  constructor <;> decide

/-- C8 amended: `is_blacklisted_content` returns true iff the filter is
enabled, the text is nonempty, the lower-cased whitespace-stripped text does
not start with a recognized command prefix, and the lower-cased text contains
some configured blacklist word or link fragment as a substring. -/
theorem blacklist_classification (cfg : AntimatConfig) (text : String) :
    is_blacklisted_content cfg text =
      (cfg.enabled && !text.data.isEmpty &&
       !commands.any (fun c => (pyLower c.data).isPrefixOf (pyStrip (pyLower text.data))) &&
       (cfg.blacklist_words.any (fun w => strContains (pyLower text.data) w.data) ||
        cfg.blacklist_links.any (fun l => strContains (pyLower text.data) l.data))) := by
  unfold is_blacklisted_content
  split_ifs with h1 h2 h3 h4
  · simp_all
    intro hen hne
    rcases h1 with h | h
    · exact absurd h hne
    · simp [h] at hen
  · simp_all
  · simp_all
  · simp_all
  · simp_all

/-- The explicit plugin registration order (`plugin_loader.py` lines 23-46). -/
def plugin_order : List String :=
  ["admin_panel", "scheduler_plugin", "post_manager_plugin",
   "hello_plugin", "triggers_plugin", "warn_plugin", "mute_plugin",
   "ban_plugin", "poll_plugin", "reputation_plugin",
   "blacklist_plugin", "antiflood_plugin",
   "invite_stats", "stats_plugin",
   "captcha_plugin", "delete_plugin"]

/-- Which plugin's `register` installs a message middleware via
`dp.message.middleware(...)`: exactly the blacklist, antiflood and stats
plugins do (`blacklist_plugin.py` line 262, `antiflood_plugin.py` line 183,
`stats_plugin.py` line 504). -/
def registersMessageMiddleware (p : String) : Bool :=
  p == "blacklist_plugin" || p == "antiflood_plugin" || p == "stats_plugin"

/-- aiogram executes message middlewares in registration order (the first
registered is outermost), so the middleware chain is `plugin_order`
restricted to the middleware-registering plugins. -/
def messageMiddlewareOrder : List String :=
  plugin_order.filter registersMessageMiddleware

/-- Outcome of the transport call `message.delete()`: success, a
`TelegramBadRequest`/`TelegramForbiddenError`, or any other exception. -/
inductive DeleteOutcome where
  | ok
  | permError
  | otherError
deriving Repr, DecidableEq

/-- Observable outcome of one `BlacklistMiddleware` invocation: whether the
offending message was deleted, whether a transient warning was sent, and
whether the wrapped handler chain was invoked afterwards. -/
structure BlacklistStepResult where
  deleted : Bool
  warned : Bool
  callsHandler : Bool
deriving Repr, DecidableEq

/-- `BlacklistMiddleware.__call__` (`blacklist_plugin.py` lines 189-250).
Textless events pass straight through.  A non-command blacklisted text is
deleted; on successful deletion a warning is sent (when warnings are enabled)
and the middleware returns without calling the handler; on a
`TelegramBadRequest`/`TelegramForbiddenError` a warning is sent instead and
control falls through to `handler(event, data)`; on any other exception
control also falls through.  Warning sends are modelled as non-failing. -/
def blacklistMiddleware (cfg : AntimatConfig) (text : Option String)
    (del : DeleteOutcome) : BlacklistStepResult :=
  match text with
  | none => ⟨false, false, true⟩
  | some t =>
    if t.data.isEmpty then ⟨false, false, true⟩
    else if !commands.any (fun c => (pyLower c.data).isPrefixOf (pyStrip (pyLower t.data)))
        && is_blacklisted_content cfg t then
      match del with
      | .ok => ⟨true, cfg.warnings_enabled, false⟩
      | .permError => ⟨false, cfg.warnings_enabled, true⟩
      | .otherError => ⟨false, false, true⟩
    else ⟨false, false, true⟩

/-- Observable outcome of one `AntifloodMiddleware` invocation: whether
`is_flooding` was invoked (and hence the timestamp recorded), whether the
message was consumed as flood, and the key's resulting window. -/
structure AntifloodStepResult where
  checked : Bool
  consumed : Bool
  window : List Int
deriving Repr, DecidableEq

/-- `AntifloodMiddleware.__call__` (`antiflood_plugin.py` lines 115-142) for a
single message, with the flood window of the message's (chat, user) key
threaded explicitly: textless messages pass through without invoking
`is_flooding`; otherwise `is_flooding` records `now` and a positive verdict
consumes the message (delete + transient warning, handler not called). -/
def antifloodMiddleware (cfg : AntispamConfig) (w : List Int) (now : Int)
    (text : Option String) : AntifloodStepResult :=
  match text with
  | none => ⟨false, false, w⟩
  | some t =>
    if t.data.isEmpty then ⟨false, false, w⟩
    else ⟨true, (is_flooding cfg w now).1, (is_flooding cfg w now).2⟩

/-- Combined outcome of one message passing through the middleware chain. -/
structure DispatchOutcome where
  blacklist : BlacklistStepResult
  floodRan : Bool
  flood : AntifloodStepResult
  handlerRan : Bool
deriving Repr, DecidableEq

/-- The message middleware chain in registration order (`plugin_loader.py`):
`BlacklistMiddleware` is registered before `AntifloodMiddleware`, so the
blacklist stage runs first and the antiflood stage runs only when the
blacklist stage calls its handler; the rest of the chain (stats middleware
and registered handlers) runs only when neither stage consumes the
message. -/
def dispatchMessage (acfg : AntispamConfig) (bcfg : AntimatConfig)
    (w : List Int) (now : Int) (text : Option String) (del : DeleteOutcome) :
    DispatchOutcome :=
  let b := blacklistMiddleware bcfg text del
  if b.callsHandler then
    let a := antifloodMiddleware acfg w now text
    ⟨b, true, a, !a.consumed⟩
  else
    ⟨b, false, ⟨false, false, w⟩, false⟩

/-- A text classified as blacklisted is necessarily nonempty. -/
theorem blacklisted_nonempty {cfg : AntimatConfig} {t : String}
    (hb : is_blacklisted_content cfg t = true) : t.data.isEmpty = false := by
  by_cases h : t.data.isEmpty
  · simp [is_blacklisted_content, h] at hb
  · simpa using h

/-- A text classified as blacklisted does not start with a command prefix
(after lower-casing and stripping). -/
theorem blacklisted_not_command {cfg : AntimatConfig} {t : String}
    (hb : is_blacklisted_content cfg t = true) :
    commands.any (fun c => (pyLower c.data).isPrefixOf (pyStrip (pyLower t.data))) = false := by
  by_cases h : commands.any
      (fun c => (pyLower c.data).isPrefixOf (pyStrip (pyLower t.data))) = true
  · simp [is_blacklisted_content, h] at hb
  · simpa using h

/-- C3 counterexample: a message (`"дурак"` as the sixth message within the
window) that both floods and is blacklisted is consumed by the content-filter
stage and the flood stage never runs, contradicting the claimed
flood-before-content-filter order. -/
theorem dispatch_order_counterexample :
    (is_flooding ⟨true, 5, 10⟩ [0, 1, 2, 3, 4] 5).1 = true ∧
    is_blacklisted_content antimatDefault "дурак" = true ∧
    (dispatchMessage ⟨true, 5, 10⟩ antimatDefault [0, 1, 2, 3, 4] 5
        (some "дурак") .ok).blacklist.deleted = true ∧
    (dispatchMessage ⟨true, 5, 10⟩ antimatDefault [0, 1, 2, 3, 4] 5
        (some "дурак") .ok).floodRan = false := by
  refine ⟨by decide, by decide, by decide, by decide⟩

/-- C3 amended: the middleware registration order places the Content Filter
before the Flood Detector, so whenever the blacklist stage consumes a
message, the flood stage never acts on it (it is not even invoked and the
flood window is left unrecorded). -/
theorem dispatch_content_filter_first (acfg : AntispamConfig)
    (bcfg : AntimatConfig) (w : List Int) (now : Int) (t : String)
    (del : DeleteOutcome) :
    messageMiddlewareOrder = ["blacklist_plugin", "antiflood_plugin", "stats_plugin"] ∧
    ((blacklistMiddleware bcfg (some t) del).callsHandler = false →
      (dispatchMessage acfg bcfg w now (some t) del).floodRan = false ∧
      (dispatchMessage acfg bcfg w now (some t) del).flood.window = w) := by
  refine ⟨by decide, fun h => ?_⟩
  simp [dispatchMessage, h]

/-- C3 amended witness: with the default configs, the blacklisted text
`"дурак"` (deletion succeeding) is consumed by the content filter and the
flood stage never runs. -/
theorem dispatch_content_filter_first_witness :
    messageMiddlewareOrder = ["blacklist_plugin", "antiflood_plugin", "stats_plugin"] ∧
    ((dispatchMessage ⟨true, 5, 10⟩ antimatDefault [] 0 (some "дурак") .ok).floodRan = false ∧
     (dispatchMessage ⟨true, 5, 10⟩ antimatDefault [] 0 (some "дурак") .ok).flood.window = []) :=
  ⟨(dispatch_content_filter_first ⟨true, 5, 10⟩ antimatDefault [] 0 "дурак" .ok).1,
   (dispatch_content_filter_first ⟨true, 5, 10⟩ antimatDefault [] 0 "дурак" .ok).2 (by decide)⟩

/-- C9 counterexample: on a blacklisted message whose deletion fails with a
permission error, the blacklist middleware falls through and the later
dispatch stages still run, contradicting the claimed unconditional stop. -/
theorem content_filter_stop_counterexample :
    is_blacklisted_content antimatDefault "дурак" = true ∧
    (blacklistMiddleware antimatDefault (some "дурак") .permError).callsHandler = true ∧
    (dispatchMessage ⟨true, 5, 10⟩ antimatDefault [] 0
        (some "дурак") .permError).handlerRan = true := by
  refine ⟨by decide, by decide, by decide⟩

/-- C9 amended: for a blacklisted message, when deletion succeeds the message
is deleted, a warning is sent iff warnings are enabled, and no later stage
runs; when deletion fails with a permission error a warning is sent iff
warnings are enabled but processing falls through to the later stages. -/
theorem content_filter_stop (acfg : AntispamConfig) (cfg : AntimatConfig)
    (w : List Int) (now : Int) (t : String)
    (hb : is_blacklisted_content cfg t = true) :
    blacklistMiddleware cfg (some t) .ok = ⟨true, cfg.warnings_enabled, false⟩ ∧
    (dispatchMessage acfg cfg w now (some t) .ok).floodRan = false ∧
    (dispatchMessage acfg cfg w now (some t) .ok).handlerRan = false ∧
    blacklistMiddleware cfg (some t) .permError = ⟨false, cfg.warnings_enabled, true⟩ := by
  have hne := blacklisted_nonempty hb
  have hnc := blacklisted_not_command hb
  refine ⟨?_, ?_, ?_, ?_⟩ <;>
    simp [blacklistMiddleware, dispatchMessage, hne, hnc, hb]

/-- C9 amended witness: the blacklisted text `"дурак"` under the default
configuration, in both the deletion-succeeds and deletion-fails cases. -/
theorem content_filter_stop_witness :
    blacklistMiddleware antimatDefault (some "дурак") .ok = ⟨true, true, false⟩ ∧
    (dispatchMessage ⟨true, 5, 10⟩ antimatDefault [] 0 (some "дурак") .ok).floodRan = false ∧
    (dispatchMessage ⟨true, 5, 10⟩ antimatDefault [] 0 (some "дурак") .ok).handlerRan = false ∧
    blacklistMiddleware antimatDefault (some "дурак") .permError = ⟨false, true, true⟩ :=
  content_filter_stop ⟨true, 5, 10⟩ antimatDefault [] 0 "дурак" (by decide)

/-- A persisted scheduled post (`models/base.py`, class `ScheduledPost`).
Timestamps are modelled as integers, the status as its literal string. -/
structure Post where
  id : Nat
  chat_id : Int
  topic_id : Option Int
  publish_time : Int
  text : String
  media_file_id : Option String
  media_type : Option String
  status : String
  published_at : Option Int
  telegram_message_id : Option Int
  buttons_json : Option String
deriving Repr, DecidableEq

/-- Outcome of the transport send call for a given post: a delivered message
with its id, or an exception. -/
inductive SendOutcome where
  | sent (messageId : Int)
  | errored
deriving Repr, DecidableEq

/-- The send step of the sweep body (`scheduler_plugin.py` lines 48-80): with
a media reference of a known kind (`photo`/`video`/`document`), or with no
media reference, the transport is called and yields a message or raises;
with a media reference of an unrecognized kind none of the send branches
runs, so `sent_message` stays `None` and no exception occurs. -/
def attemptSend (env : Post → SendOutcome) (p : Post) : Except Unit (Option Int) :=
  match p.media_file_id with
  | some _ =>
    if p.media_type = some "photo" ∨ p.media_type = some "video" ∨
        p.media_type = some "document" then
      match env p with
      | .sent m => .ok (some m)
      | .errored => .error ()
    else .ok none
  | none =>
    match env p with
    | .sent m => .ok (some m)
    | .errored => .error ()

/-- The per-post body of the sweep loop (`scheduler_plugin.py` lines 30-93):
no exception marks the post `published` at `now` and, when a message was
delivered, records its id; an exception marks the post `failed`.
Button-parsing errors are caught internally and only affect the transport
payload, which `env` abstracts. -/
def processPost (env : Post → SendOutcome) (now : Int) (p : Post) : Post :=
  match attemptSend env p with
  | .ok sm =>
    { p with status := "published", published_at := some now,
             telegram_message_id :=
               match sm with
               | some m => some m
               | none => p.telegram_message_id }
  | .error _ => { p with status := "failed" }

/-- The due filter of the sweep's query (`scheduler_plugin.py` line 20):
status `pending` and `publish_time <= now`. -/
def isDue (now : Int) (p : Post) : Bool :=
  p.status == "pending" && decide (p.publish_time ≤ now)

/-- `check_and_send_posts` (`scheduler_plugin.py` lines 14-102) as a function
of the post table: each row matched by the due query is processed by the
sweep body; every other row is untouched. -/
def check_and_send_posts (env : Post → SendOutcome) (now : Int)
    (posts : List Post) : List Post :=
  posts.map (fun p => if isDue now p then processPost env now p else p)

/-- C2.  Scheduled-post sweep correctness: a sweep leaves every non-due post
unchanged; a due post whose send succeeds becomes `published` with the
publish timestamp and the delivered message's id recorded (non-null); and a
post whose status is `published` is never evaluated again by any later
sweep. -/
theorem scheduler_sweep_correct (env : Post → SendOutcome) (now now2 : Int)
    (p : Post) :
    (isDue now p = false → check_and_send_posts env now [p] = [p]) ∧
    (isDue now p = true → ∀ m : Int, env p = .sent m →
      (p.media_file_id = none ∨ p.media_type = some "photo" ∨
       p.media_type = some "video" ∨ p.media_type = some "document") →
      check_and_send_posts env now [p] =
        [{ p with status := "published", published_at := some now,
                  telegram_message_id := some m }]) ∧
    (p.status = "published" → check_and_send_posts env now2 [p] = [p]) := by
  refine ⟨fun h => ?_, fun h m henv hkind => ?_, fun h => ?_⟩
  · simp [check_and_send_posts, h]
  · cases hm : p.media_file_id with
    | none => simp [check_and_send_posts, h, processPost, attemptSend, hm, henv]
    | some f =>
      rcases hkind with hk | hk | hk | hk
      · rw [hm] at hk; exact absurd hk (by simp)
      all_goals simp [check_and_send_posts, h, processPost, attemptSend, hm, hk, henv]
  · have hdue : isDue now2 p = false := by simp [isDue, h]
    simp [check_and_send_posts, hdue]

/-- C2 witness: a textual post due one second in the past is published by one
sweep with the delivered id recorded, and the resulting published post is
left untouched by the next sweep. -/
theorem scheduler_sweep_correct_witness :
    check_and_send_posts (fun _ => .sent 77) 100
        [⟨1, 42, none, 99, "hi", none, none, "pending", none, none, none⟩] =
      [⟨1, 42, none, 99, "hi", none, none, "published", some 100, some 77, none⟩] ∧
    check_and_send_posts (fun _ => .sent 78) 160
        [⟨1, 42, none, 99, "hi", none, none, "published", some 100, some 77, none⟩] =
      [⟨1, 42, none, 99, "hi", none, none, "published", some 100, some 77, none⟩] :=
  ⟨(scheduler_sweep_correct (fun _ => .sent 77) 100 100
      ⟨1, 42, none, 99, "hi", none, none, "pending", none, none, none⟩).2.1
      (by decide) 77 rfl (Or.inl rfl),
   (scheduler_sweep_correct (fun _ => .sent 78) 100 160
      ⟨1, 42, none, 99, "hi", none, none, "published", some 100, some 77, none⟩).2.2 rfl⟩

/-- The three admin sources consulted by `is_user_admin`
(`utils/admin_utils.py` lines 15-73): config-listed ids (`settings.ADMINS`),
stored admin records (consulted only when a database session factory is
available and the lookup succeeds), and the chat-native member status
(`none` models a transport error from `get_chat_member`, which yields
`False`). -/
structure AdminEnv where
  configAdmins : List Int
  dbAvailable : Bool
  dbAdmins : List Int
  chatStatus : Int → Option String

/-- `is_user_admin` (`utils/admin_utils.py` lines 15-73): config admins,
then stored admin records, then chat-native `creator`/`administrator`
status, short-circuiting on the first match. -/
def is_user_admin (a : AdminEnv) (uid : Int) : Bool :=
  if a.configAdmins.contains uid then true
  else if a.dbAvailable && a.dbAdmins.contains uid then true
  else match a.chatStatus uid with
    | some s => s == "creator" || s == "administrator"
    | none => false

/-- Outcome of the `ban_chat_member` transport call: success, a
`TelegramBadRequest`/`TelegramForbiddenError`, or any other exception. -/
inductive BanOutcome where
  | ok
  | telegramError
  | otherError
deriving Repr, DecidableEq

/-- Environment of one `/warn` invocation (`warn_plugin.py`,
`warn_command`): the admin sources, the command's actor, the target as
resolved by `extract_user_info` (`none` when no user id could be resolved),
and the transport outcome of the ban call, were it made. -/
structure WarnEnv where
  admin : AdminEnv
  actorId : Int
  target : Option Int
  banResult : BanOutcome

/-- Observable outcome of one `/warn` invocation: the updated warning map
(count 0 models absence from the `warns` dict, whose stored counts are
always positive), whether `ban_chat_member` was called, and which
informational notice (`some 1`/`some 2`) was sent, if any. -/
structure WarnResult where
  warns : Int → Nat
  banCalled : Bool
  notice : Option Nat

/-- `warn_command` (`warn_plugin.py` lines 98-156).  A non-admin actor, an
unresolved target, and an admin target are rejected without touching the
warning map.  Otherwise the target's count is incremented: at count 1 and 2
an informational notice is sent; at count >= 3 `ban_chat_member` is called
and — on success or on a `TelegramBadRequest`/`TelegramForbiddenError` —
the target's entry is deleted; any other exception from the ban call is
caught by the outer handler after the increment, leaving the count in
place. -/
def warn_command (env : WarnEnv) (warns : Int → Nat) : WarnResult :=
  if !is_user_admin env.admin env.actorId then ⟨warns, false, none⟩
  else match env.target with
  | none => ⟨warns, false, none⟩
  | some uid =>
    if is_user_admin env.admin uid then ⟨warns, false, none⟩
    else
      let count := warns uid + 1
      let warns1 : Int → Nat := fun u => if u = uid then count else warns u
      if count = 1 then ⟨warns1, false, some 1⟩
      else if count = 2 then ⟨warns1, false, some 2⟩
      else
        match env.banResult with
        | .ok => ⟨fun u => if u = uid then 0 else warns1 u, true, none⟩
        | .telegramError => ⟨fun u => if u = uid then 0 else warns1 u, true, none⟩
        | .otherError => ⟨warns1, true, none⟩

/-- Environment of one `/mute` or `/unmute` invocation (`mute_plugin.py`):
admin sources, actor, resolved target, and — for `/mute` — the first
numeric non-`@` argument of the command (the parsed mute duration), if
any. -/
structure MuteEnv where
  admin : AdminEnv
  actorId : Int
  target : Option Int
  firstNumericArg : Option Int

/-- `mute_command` (`mute_plugin.py` lines 183-293), reduced to whether the
muting `restrict_chat_member` call is made: a non-admin actor, an
unresolved target, an admin target, and a non-positive parsed duration are
each rejected before the restrict call. -/
def mute_command (env : MuteEnv) : Bool :=
  if !is_user_admin env.admin env.actorId then false
  else match env.target with
  | none => false
  | some uid =>
    if is_user_admin env.admin uid then false
    else match env.firstNumericArg with
      | some v => if v ≤ 0 then false else true
      | none => true

/-- `unmute_command` (`mute_plugin.py` lines 295-349), reduced to whether
the unmuting `restrict_chat_member` call is made: a non-admin actor, an
unresolved target and an admin target are each rejected before it. -/
def unmute_command (env : MuteEnv) : Bool :=
  if !is_user_admin env.admin env.actorId then false
  else match env.target with
  | none => false
  | some uid => !is_user_admin env.admin uid

/-- A target that is an administrator by any of the three sources resolves
as admin under `is_user_admin`. -/
theorem is_user_admin_of_source (a : AdminEnv) (uid : Int)
    (hsrc : a.configAdmins.contains uid = true ∨
      (a.dbAvailable = true ∧ a.dbAdmins.contains uid = true) ∨
      a.chatStatus uid = some "creator" ∨
      a.chatStatus uid = some "administrator") :
    is_user_admin a uid = true := by
  rcases hsrc with h | ⟨h1, h2⟩ | h | h
  · have hm : uid ∈ a.configAdmins := by simpa using h
    simp [is_user_admin, hm]
  · have hm : uid ∈ a.dbAdmins := by simpa using h2
    simp [is_user_admin, h1, hm]
  · simp [is_user_admin, h]
  · simp [is_user_admin, h]

/-- C5.  Admin-protection invariant: when the resolved target is an
administrator by any of the three sources (config-listed id, stored admin
record, or chat-native administrator/creator role), `/warn` leaves the
warning map unchanged with no ban call, and `/mute`/`/unmute` make no
restrict call. -/
theorem admin_protection (a : AdminEnv) (actor uid : Int)
    (ban : BanOutcome) (arg : Option Int) (warns : Int → Nat)
    (hsrc : a.configAdmins.contains uid = true ∨
      (a.dbAvailable = true ∧ a.dbAdmins.contains uid = true) ∨
      a.chatStatus uid = some "creator" ∨
      a.chatStatus uid = some "administrator") :
    warn_command ⟨a, actor, some uid, ban⟩ warns = ⟨warns, false, none⟩ ∧
    mute_command ⟨a, actor, some uid, arg⟩ = false ∧
    unmute_command ⟨a, actor, some uid, arg⟩ = false := by
  have hadm := is_user_admin_of_source a uid hsrc
  refine ⟨?_, ?_, ?_⟩ <;> simp [warn_command, mute_command, unmute_command, hadm]

/-- C5 witness: a config-listed admin target (id 7) is protected from
`/warn`, `/mute` and `/unmute` regardless of the actor's own rights. -/
theorem admin_protection_witness :
    warn_command ⟨⟨[7], false, [], fun _ => none⟩, 1, some 7, .ok⟩ (fun _ => 0) =
      ⟨(fun _ => 0), false, none⟩ ∧
    mute_command ⟨⟨[7], false, [], fun _ => none⟩, 1, some 7, none⟩ = false ∧
    unmute_command ⟨⟨[7], false, [], fun _ => none⟩, 1, some 7, none⟩ = false :=
  admin_protection ⟨[7], false, [], fun _ => none⟩ 1 7 .ok none (fun _ => 0)
    (Or.inl rfl)

/-- C4.  Warning escalation: with an authorized actor and a resolved
non-admin target having no prior warnings, three sequential warns produce
informational notices at counts 1 and 2 and, at count 3, exactly one ban
call with the target's count reset to zero; a fourth warn after the reset
yields count 1 again, never a second ban. -/
theorem warn_escalation (a : AdminEnv) (actor uid : Int) (warns0 : Int → Nat)
    (hactor : is_user_admin a actor = true)
    (htarget : is_user_admin a uid = false)
    (h0 : warns0 uid = 0) :
    (warn_command ⟨a, actor, some uid, .ok⟩ warns0).notice = some 1 ∧
    (warn_command ⟨a, actor, some uid, .ok⟩ warns0).banCalled = false ∧
    (warn_command ⟨a, actor, some uid, .ok⟩ warns0).warns uid = 1 ∧
    ((warn_command ⟨a, actor, some uid, .ok⟩
        (warn_command ⟨a, actor, some uid, .ok⟩ warns0).warns).notice = some 2 ∧
     (warn_command ⟨a, actor, some uid, .ok⟩
        (warn_command ⟨a, actor, some uid, .ok⟩ warns0).warns).banCalled = false ∧
     (warn_command ⟨a, actor, some uid, .ok⟩
        (warn_command ⟨a, actor, some uid, .ok⟩ warns0).warns).warns uid = 2) ∧
    ((warn_command ⟨a, actor, some uid, .ok⟩
        (warn_command ⟨a, actor, some uid, .ok⟩
          (warn_command ⟨a, actor, some uid, .ok⟩ warns0).warns).warns).banCalled = true ∧
     (warn_command ⟨a, actor, some uid, .ok⟩
        (warn_command ⟨a, actor, some uid, .ok⟩
          (warn_command ⟨a, actor, some uid, .ok⟩ warns0).warns).warns).warns uid = 0) ∧
    ((warn_command ⟨a, actor, some uid, .ok⟩
        (warn_command ⟨a, actor, some uid, .ok⟩
          (warn_command ⟨a, actor, some uid, .ok⟩
            (warn_command ⟨a, actor, some uid, .ok⟩ warns0).warns).warns).warns).notice = some 1 ∧
     (warn_command ⟨a, actor, some uid, .ok⟩
        (warn_command ⟨a, actor, some uid, .ok⟩
          (warn_command ⟨a, actor, some uid, .ok⟩
            (warn_command ⟨a, actor, some uid, .ok⟩ warns0).warns).warns).warns).banCalled = false ∧
     (warn_command ⟨a, actor, some uid, .ok⟩
        (warn_command ⟨a, actor, some uid, .ok⟩
          (warn_command ⟨a, actor, some uid, .ok⟩
            (warn_command ⟨a, actor, some uid, .ok⟩ warns0).warns).warns).warns).warns uid = 1) := by
  simp [warn_command, hactor, htarget, h0]

/-- C4 witness: actor 1 (config admin), target 5 (not an admin), starting
from an empty warning map. -/
theorem warn_escalation_witness :
    (warn_command ⟨⟨[1], false, [], fun _ => none⟩, 1, some 5, .ok⟩ (fun _ => 0)).notice = some 1 ∧
    (warn_command ⟨⟨[1], false, [], fun _ => none⟩, 1, some 5, .ok⟩ (fun _ => 0)).banCalled = false ∧
    (warn_command ⟨⟨[1], false, [], fun _ => none⟩, 1, some 5, .ok⟩ (fun _ => 0)).warns 5 = 1 ∧
    ((warn_command ⟨⟨[1], false, [], fun _ => none⟩, 1, some 5, .ok⟩
        (warn_command ⟨⟨[1], false, [], fun _ => none⟩, 1, some 5, .ok⟩ (fun _ => 0)).warns).notice = some 2 ∧
     (warn_command ⟨⟨[1], false, [], fun _ => none⟩, 1, some 5, .ok⟩
        (warn_command ⟨⟨[1], false, [], fun _ => none⟩, 1, some 5, .ok⟩ (fun _ => 0)).warns).banCalled = false ∧
     (warn_command ⟨⟨[1], false, [], fun _ => none⟩, 1, some 5, .ok⟩
        (warn_command ⟨⟨[1], false, [], fun _ => none⟩, 1, some 5, .ok⟩ (fun _ => 0)).warns).warns 5 = 2) ∧
    ((warn_command ⟨⟨[1], false, [], fun _ => none⟩, 1, some 5, .ok⟩
        (warn_command ⟨⟨[1], false, [], fun _ => none⟩, 1, some 5, .ok⟩
          (warn_command ⟨⟨[1], false, [], fun _ => none⟩, 1, some 5, .ok⟩ (fun _ => 0)).warns).warns).banCalled = true ∧
     (warn_command ⟨⟨[1], false, [], fun _ => none⟩, 1, some 5, .ok⟩
        (warn_command ⟨⟨[1], false, [], fun _ => none⟩, 1, some 5, .ok⟩
          (warn_command ⟨⟨[1], false, [], fun _ => none⟩, 1, some 5, .ok⟩ (fun _ => 0)).warns).warns).warns 5 = 0) ∧
    ((warn_command ⟨⟨[1], false, [], fun _ => none⟩, 1, some 5, .ok⟩
        (warn_command ⟨⟨[1], false, [], fun _ => none⟩, 1, some 5, .ok⟩
          (warn_command ⟨⟨[1], false, [], fun _ => none⟩, 1, some 5, .ok⟩
            (warn_command ⟨⟨[1], false, [], fun _ => none⟩, 1, some 5, .ok⟩ (fun _ => 0)).warns).warns).warns).notice = some 1 ∧
     (warn_command ⟨⟨[1], false, [], fun _ => none⟩, 1, some 5, .ok⟩
        (warn_command ⟨⟨[1], false, [], fun _ => none⟩, 1, some 5, .ok⟩
          (warn_command ⟨⟨[1], false, [], fun _ => none⟩, 1, some 5, .ok⟩
            (warn_command ⟨⟨[1], false, [], fun _ => none⟩, 1, some 5, .ok⟩ (fun _ => 0)).warns).warns).warns).banCalled = false ∧
     (warn_command ⟨⟨[1], false, [], fun _ => none⟩, 1, some 5, .ok⟩
        (warn_command ⟨⟨[1], false, [], fun _ => none⟩, 1, some 5, .ok⟩
          (warn_command ⟨⟨[1], false, [], fun _ => none⟩, 1, some 5, .ok⟩
            (warn_command ⟨⟨[1], false, [], fun _ => none⟩, 1, some 5, .ok⟩ (fun _ => 0)).warns).warns).warns).warns 5 = 1) :=
  warn_escalation ⟨[1], false, [], fun _ => none⟩ 1 5 (fun _ => 0) rfl rfl rfl

/-- C10.  When the ban attempt at the third warning raises a
`TelegramBadRequest`/`TelegramForbiddenError`, the warning count is still
reset to zero, so the next warn on that user counts as the first warning
even though no ban took effect. -/
theorem warn_ban_failure_resets (a : AdminEnv) (actor uid : Int)
    (warns : Int → Nat)
    (hactor : is_user_admin a actor = true)
    (htarget : is_user_admin a uid = false)
    (h2 : warns uid = 2) :
    (warn_command ⟨a, actor, some uid, .telegramError⟩ warns).banCalled = true ∧
    (warn_command ⟨a, actor, some uid, .telegramError⟩ warns).warns uid = 0 ∧
    (warn_command ⟨a, actor, some uid, .ok⟩
        (warn_command ⟨a, actor, some uid, .telegramError⟩ warns).warns).notice = some 1 ∧
    (warn_command ⟨a, actor, some uid, .ok⟩
        (warn_command ⟨a, actor, some uid, .telegramError⟩ warns).warns).banCalled = false ∧
    (warn_command ⟨a, actor, some uid, .ok⟩
        (warn_command ⟨a, actor, some uid, .telegramError⟩ warns).warns).warns uid = 1 := by
  simp [warn_command, hactor, htarget, h2]

/-- C10 witness: target 5 at two prior warnings; the third warn's ban fails
with a transport error yet resets the count, and the next warn is count 1. -/
theorem warn_ban_failure_resets_witness :
    (warn_command ⟨⟨[1], false, [], fun _ => none⟩, 1, some 5, .telegramError⟩
        (fun u => if u = 5 then 2 else 0)).banCalled = true ∧
    (warn_command ⟨⟨[1], false, [], fun _ => none⟩, 1, some 5, .telegramError⟩
        (fun u => if u = 5 then 2 else 0)).warns 5 = 0 ∧
    (warn_command ⟨⟨[1], false, [], fun _ => none⟩, 1, some 5, .ok⟩
        (warn_command ⟨⟨[1], false, [], fun _ => none⟩, 1, some 5, .telegramError⟩
          (fun u => if u = 5 then 2 else 0)).warns).notice = some 1 ∧
    (warn_command ⟨⟨[1], false, [], fun _ => none⟩, 1, some 5, .ok⟩
        (warn_command ⟨⟨[1], false, [], fun _ => none⟩, 1, some 5, .telegramError⟩
          (fun u => if u = 5 then 2 else 0)).warns).banCalled = false ∧
    (warn_command ⟨⟨[1], false, [], fun _ => none⟩, 1, some 5, .ok⟩
        (warn_command ⟨⟨[1], false, [], fun _ => none⟩, 1, some 5, .telegramError⟩
          (fun u => if u = 5 then 2 else 0)).warns).warns 5 = 1 :=
  warn_ban_failure_resets ⟨[1], false, [], fun _ => none⟩ 1 5
    (fun u => if u = 5 then 2 else 0) rfl rfl rfl

/-- A live `pending_users` entry (`captcha_plugin.py` lines 14 and 118-124):
the chat the challenge was issued in, the challenge message id, and the
verification token.  The timeout-task handle and join info are omitted. -/
structure PendingEntry where
  chat_id : Int
  message_id : Int
  token : String
deriving Repr, DecidableEq

/-- The parsed payload of a `captcha` callback press
(`captcha_plugin.py` lines 158-166): chat id, user id and token. -/
structure CaptchaData where
  chat_id : Int
  user_id : Int
  token : String
deriving Repr, DecidableEq

/-- Observable outcome of one `on_captcha_callback` invocation: the updated
`pending_users` map, the `(chat, user)` of the permission-restoring
restrict call if one was made, and whether verification succeeded. -/
structure CaptchaResult where
  pending : Int → Option PendingEntry
  restored : Option (Int × Int)
  verified : Bool

/-- `on_captcha_callback` (`captcha_plugin.py` lines 152-308): rejects when
the pressing actor differs from the payload's user id, when no pending
entry exists for that user id, or when the stored token differs from the
payload's.  Otherwise it cancels the timeout task, restores permissions in
the payload's `chat_id` (the stored entry's `chat_id` is never compared),
and removes the entry.  `restrictOk` is the transport outcome of the
restoring `restrict_chat_member` call; when it raises, the outer exception
handler fires before the entry is removed.  Later sends and store writes on
the success path are modelled as non-failing. -/
def on_captcha_callback (pending : Int → Option PendingEntry)
    (d : CaptchaData) (actor : Int) (restrictOk : Bool) : CaptchaResult :=
  if actor ≠ d.user_id then ⟨pending, none, false⟩
  else match pending d.user_id with
  | none => ⟨pending, none, false⟩
  | some e =>
    if e.token ≠ d.token then ⟨pending, none, false⟩
    else if restrictOk then
      ⟨fun u => if u = d.user_id then none else pending u,
       some (d.chat_id, d.user_id), true⟩
    else ⟨pending, none, false⟩

/-- A confirmation press that finds no pending entry for its user id changes
nothing, makes no restrict call, and verifies nobody. -/
theorem captcha_noop_of_absent (pending : Int → Option PendingEntry)
    (d : CaptchaData) (actor : Int) (ro : Bool)
    (h : pending d.user_id = none) :
    on_captcha_callback pending d actor ro = ⟨pending, none, false⟩ := by
  unfold on_captcha_callback
  by_cases ha : actor ≠ d.user_id
  · simp [ha]
  · simp [ha, h]

/-- The stored pending map used in the C6 counterexample: user 5 has a live
challenge issued in chat 1 with token `tok`. -/
def pendingW : Int → Option PendingEntry :=
  fun u => if u = 5 then some ⟨1, 10, "tok"⟩ else none

/-- C6 counterexample: with user 5's entry stored for chat 1, a confirmation
carrying chat id 2, user id 5 and the matching token, pressed by user 5, is
accepted: the entry is consumed and permissions are restored in chat 2,
although the payload's chat id differs from the stored entry's —
contradicting the claimed exact `(chat_id, user_id, token)` match and the
claimed no-op on a chat mismatch. -/
theorem captcha_guard_counterexample :
    pendingW 5 = some ⟨1, 10, "tok"⟩ ∧
    (on_captcha_callback pendingW ⟨2, 5, "tok"⟩ 5 true).verified = true ∧
    (on_captcha_callback pendingW ⟨2, 5, "tok"⟩ 5 true).pending 5 = none ∧
    (on_captcha_callback pendingW ⟨2, 5, "tok"⟩ 5 true).restored = some (2, 5) :=
  ⟨rfl, rfl, rfl, rfl⟩

/-- C6 amended: a pending user transitions to Verified (permissions
restored, entry consumed) exactly when the pressing actor equals the
payload's user id, a pending entry exists under that user id, and the
stored token matches the payload's token; the payload's chat id is used as
the restore target but never compared against the stored entry.  An actor
mismatch, a missing entry, or a token mismatch leaves the pending map and
the restricted permissions unchanged. -/
theorem captcha_guard (pending : Int → Option PendingEntry) (d : CaptchaData)
    (actor : Int) :
    (actor ≠ d.user_id →
      on_captcha_callback pending d actor true = ⟨pending, none, false⟩) ∧
    (pending d.user_id = none →
      on_captcha_callback pending d actor true = ⟨pending, none, false⟩) ∧
    (∀ e, pending d.user_id = some e → e.token ≠ d.token →
      on_captcha_callback pending d actor true = ⟨pending, none, false⟩) ∧
    (∀ e, pending d.user_id = some e → actor = d.user_id → e.token = d.token →
      on_captcha_callback pending d actor true =
        ⟨fun u => if u = d.user_id then none else pending u,
         some (d.chat_id, d.user_id), true⟩) := by
  refine ⟨fun h => ?_, fun h => captcha_noop_of_absent pending d actor true h,
    fun e he ht => ?_, fun e he ha ht => ?_⟩
  · simp [on_captcha_callback, h]
  · unfold on_captcha_callback
    by_cases ha : actor ≠ d.user_id
    · simp [ha]
    · simp [ha, he, ht]
  · simp [on_captcha_callback, ha, he, ht]

/-- C6 amended witness: the matching confirmation for user 5's stored entry
is accepted and consumes it; flipping the actor or the token alone is a
no-op. -/
theorem captcha_guard_witness :
    on_captcha_callback pendingW ⟨1, 5, "tok"⟩ 5 true =
      ⟨fun u => if u = 5 then none else pendingW u, some (1, 5), true⟩ ∧
    on_captcha_callback pendingW ⟨1, 5, "tok"⟩ 6 true = ⟨pendingW, none, false⟩ ∧
    on_captcha_callback pendingW ⟨1, 5, "bad"⟩ 5 true = ⟨pendingW, none, false⟩ :=
  ⟨(captcha_guard pendingW ⟨1, 5, "tok"⟩ 5).2.2.2 ⟨1, 10, "tok"⟩ rfl rfl rfl,
   (captcha_guard pendingW ⟨1, 5, "tok"⟩ 6).1 (by decide),
   (captcha_guard pendingW ⟨1, 5, "bad"⟩ 5).2.2.1 ⟨1, 10, "tok"⟩ rfl (by decide)⟩

/-- C7.  Verification replay is a no-op: a successful confirmation removes
the pending entry, so a second confirmation carrying the same
`(chat_id, user_id, token)` finds no entry and performs no state change —
no duplicate permission restoration, no entry mutation, and (the handler
being a total function that answers with a transient notice) no crash. -/
theorem captcha_replay_noop (pending : Int → Option PendingEntry)
    (d : CaptchaData) (e : PendingEntry)
    (h : pending d.user_id = some e) (htok : e.token = d.token) :
    (on_captcha_callback pending d d.user_id true).verified = true ∧
    (on_captcha_callback pending d d.user_id true).pending d.user_id = none ∧
    on_captcha_callback (on_captcha_callback pending d d.user_id true).pending
        d d.user_id true =
      ⟨(on_captcha_callback pending d d.user_id true).pending, none, false⟩ := by
  have hfirst : on_captcha_callback pending d d.user_id true =
      ⟨fun u => if u = d.user_id then none else pending u,
       some (d.chat_id, d.user_id), true⟩ := by
    simp [on_captcha_callback, h, htok]
  refine ⟨by rw [hfirst], by rw [hfirst]; simp, ?_⟩
  apply captcha_noop_of_absent
  rw [hfirst]
  simp

/-- C7 witness: user 5's valid confirmation succeeds and removes the entry;
replaying the identical confirmation changes nothing. -/
theorem captcha_replay_noop_witness :
    (on_captcha_callback pendingW ⟨1, 5, "tok"⟩ 5 true).verified = true ∧
    (on_captcha_callback pendingW ⟨1, 5, "tok"⟩ 5 true).pending 5 = none ∧
    on_captcha_callback (on_captcha_callback pendingW ⟨1, 5, "tok"⟩ 5 true).pending
        ⟨1, 5, "tok"⟩ 5 true =
      ⟨(on_captcha_callback pendingW ⟨1, 5, "tok"⟩ 5 true).pending, none, false⟩ :=
  captcha_replay_noop pendingW ⟨1, 5, "tok"⟩ ⟨1, 10, "tok"⟩ rfl rfl

end TgBot
